import Mathlib

/-!
# Verification of the cereal serial-fiction delivery pipeline

Shallow embedding of the pipeline code of the `cereal` repository
(`src/models/*.rs`, `src/tasks/*`, `src/providers/*.rs`) together with
theorems settling the frozen claims about it.

Conventions of the embedding:
* UUIDs are modelled as `Nat`.
* `chrono::DateTime<Utc>` timestamps are modelled as `Int` (a total order
  with at-least-millisecond precision; only ordering is relevant).
* byte vectors (`Vec<u8>`) are modelled as `List Nat`.
* the `chapters` table is modelled as a `List Chapter` of its rows.
* fallible operations return `Option` (`none` = the Rust `Err`/panic path,
  error payloads are dropped since only success/failure matters here).
-/

namespace Cereal

/-- Byte vectors (`Vec<u8>`). -/
abbrev Bytes := List Nat

/-- `ChapterMetadata` (`src/models/chapters.rs`): tagged source locator. -/
inductive ChapterMetadata where
  | royalRoad (royalroad_book_id : Nat) (royalroad_chapter_id : Nat)
  | pale (url : String)
  | theWanderingInnPatreon (url : String) (password : Option String)
  | theDailyGrindPatreon
  | apparatusOfChangePatreon
  deriving Repr, DecidableEq

/-- `BookMetadata` (`src/models/books.rs`): which provider serves the book. -/
inductive BookMetadata where
  | royalRoad (book_id : Nat)
  | pale
  | theWanderingInnPatreon
  | theDailyGrindPatreon
  | apparatusOfChangePatreon
  deriving Repr, DecidableEq

/-- Row of the `books` table (`src/models/books.rs`). -/
structure Book where
  id : Nat
  title : String
  author : String
  metadata : BookMetadata
  deriving Repr, DecidableEq

/-- Row of the `chapters` table (`src/models/chapters.rs`, struct `Chapter`).
`updated_at` is omitted: no claim mentions it. -/
structure Chapter where
  id : Nat
  title : String
  metadata : ChapterMetadata
  book_id : Nat
  html : Option Bytes
  epub : Option Bytes
  published_at : Option Int
  created_at : Int
  deriving Repr, DecidableEq

/-- `NewChapter` (`src/models/chapters.rs`): transient provider output. -/
structure NewChapter where
  title : String
  metadata : ChapterMetadata
  book_id : Nat
  html : Option Bytes
  epub : Option Bytes
  published_at : Option Int
  deriving Repr, DecidableEq

/-- Row of the `subscribers` table (`src/models/subscribers.rs`). -/
structure Subscriber where
  id : Nat
  name : String
  kindle_email : Option String
  pushover_key : Option String
  deriving Repr, DecidableEq

/-- Row of the `subscriptions` table (`src/models/subscriptions.rs`).
`chunk_size` is an `i32` in the source, modelled as `Int`. -/
structure Subscription where
  id : Nat
  subscriber_id : Nat
  book_id : Nat
  chunk_size : Int
  last_delivered_chapter_id : Option Nat
  last_delivered_chapter_created_at : Option Int
  deriving Repr, DecidableEq

/-- The chapter ordering key `coalesce(published_at, created_at)` used by the
chapter list queries. -/
def orderKey (c : Chapter) : Int :=
  c.published_at.getD c.created_at

/-- `ORDER BY coalesce(published_at, created_at) ASC` as a relation. -/
def chapterLe (a b : Chapter) : Prop :=
  orderKey a ≤ orderKey b

instance : DecidableRel chapterLe := fun _ _ => inferInstanceAs (Decidable (_ ≤ _))

instance : IsTotal Chapter chapterLe := ⟨fun a b => Int.le_total (orderKey a) (orderKey b)⟩

instance : IsTrans Chapter chapterLe := ⟨fun _ _ _ h h' => le_trans h h'⟩

/-- `ORDER BY created_at DESC` as a relation (used by
`most_recent_chapter_by_created_at`): note `created_at` alone, not the
`coalesce` ordering key. -/
def createdGe (a b : Chapter) : Prop :=
  b.created_at ≤ a.created_at

instance : DecidableRel createdGe := fun _ _ => inferInstanceAs (Decidable (_ ≤ _))

instance : IsTotal Chapter createdGe := ⟨fun a b => Int.le_total b.created_at a.created_at⟩

instance : IsTrans Chapter createdGe := ⟨fun _ _ _ h h' => le_trans h' h⟩

/-- Three-valued-logic condition `coalesce(created_at > ?, true)` from the
`list_chapters_with_epub` SQL: a NULL cursor compares to NULL, and
`coalesce` turns that into true. -/
def cursorPasses (created_at : Int) (cursor : Option Int) : Bool :=
  match cursor with
  | none => true
  | some t => t < created_at

/-- `ChapterClient::list_chapters_with_epub` (`src/models/chapters.rs`):
`SELECT * FROM chapters WHERE epub IS NOT NULL AND coalesce(created_at > ?, true)
AND book_id = ? ORDER BY coalesce(published_at, created_at) ASC`. -/
def list_chapters_with_epub (db : List Chapter) (book_id : Nat)
    (cursor : Option Int) : List Chapter :=
  List.insertionSort chapterLe
    (db.filter fun c =>
      c.epub.isSome && cursorPasses c.created_at cursor && (c.book_id == book_id))

/-- `ChapterClient::most_recent_chapter_by_created_at` (`src/models/chapters.rs`):
`SELECT * FROM chapters WHERE book_id = ? ORDER BY created_at DESC LIMIT 1`. -/
def most_recent_chapter_by_created_at (db : List Chapter) (book_id : Nat) :
    Option Chapter :=
  (List.insertionSort createdGe
    (db.filter fun c => c.book_id == book_id)).head?

/-- `ChapterClient::update_chapter` (`src/models/chapters.rs`): every field is
set with `coalesce(?, old)`, so a `none` argument leaves the column unchanged.
The SQL updates every row whose `id` matches (`WHERE id = ?`). -/
def update_chapter (db : List Chapter) (id : Nat) (title : Option String)
    (html : Option Bytes) (epub : Option Bytes) (published_at : Option Int) :
    List Chapter :=
  db.map fun c =>
    if c.id = id then
      { c with
        title := title.getD c.title
        html := (html.or c.html)
        epub := (epub.or c.epub)
        published_at := (published_at.or c.published_at) }
    else c

/-- A freshly inserted row of the `chapters` table, as built by the `INSERT`
statement inside `ChapterClient::create_chapters`: a fresh UUID `id`,
`created_at = Utc::now()`, all remaining columns from the `NewChapter`. -/
def insertNewChapter (id : Nat) (now : Int) (nc : NewChapter) : Chapter :=
  { id := id
    title := nc.title
    metadata := nc.metadata
    book_id := nc.book_id
    html := nc.html
    epub := nc.epub
    published_at := nc.published_at
    created_at := now }

/-- `ChapterClient::create_chapters` (`src/models/chapters.rs` lines 222-254).

The function begins a sqlx transaction (`self.pool.begin()`), but every
per-row `INSERT ... RETURNING *` is executed with `.fetch_one(&self.pool)` —
i.e. on a connection freshly acquired from the pool, in autocommit mode, NOT
on the transaction's connection. Each successful insert therefore commits to
the store immediately, and the `transaction.rollback()` on the error path
rolls back a transaction in which no statement ever ran. The embedding gives
those semantics: rows inserted before a failing row persist.

`ids i` supplies the fresh `Uuid::new_v4()` value for the `i`-th row, `now`
the insert timestamp, and `ok i` says whether the `i`-th row insert succeeds.
Returns the resulting store contents and whether the call returned `Ok`. -/
def create_chapters (db : List Chapter) (ncs : List NewChapter)
    (ids : Nat → Nat) (now : Int) (ok : Nat → Bool) :
    List Chapter × Bool :=
  go db ncs 0
where
  go (db : List Chapter) : List NewChapter → Nat → List Chapter × Bool
    | [], _ => (db, true)
    | nc :: rest, i =>
      if ok i then go (db ++ [insertNewChapter (ids i) now nc]) rest (i + 1)
      else (db, false)

/-- `ChapterClient::get_chapter` (`src/models/chapters.rs`):
`SELECT * FROM chapters WHERE id = ?`. -/
def get_chapter (db : List Chapter) (id : Nat) : Option Chapter :=
  db.find? fun c => c.id == id

/-- Rust's `chunk_size as usize` cast (`src/tasks/delivery/mod.rs` line 69):
an `i32` reinterpreted as a 64-bit `usize`, i.e. reduced mod 2^64. -/
def i32AsUsize (n : Int) : Nat :=
  (n % (2 : Int) ^ 64).toNat

/-- The readiness test performed per subscription by `find_ready_deliveries`
(`src/tasks/delivery/mod.rs`): the subscription is ready when
`chapters.len() >= subscription.chunk_size as usize` where `chapters` is
`list_chapters_with_epub(book.id, subscription.last_delivered_chapter_created_at)`. -/
def subscription_ready (db : List Chapter) (sub : Subscription) : Bool :=
  i32AsUsize sub.chunk_size
    ≤ (list_chapters_with_epub db sub.book_id
        sub.last_delivered_chapter_created_at).length

/-- `SubscriptionClient::create_subscription` (`src/models/subscriptions.rs`
lines 54-124). Checks, in source order: book exists; when a
`last_delivered_chapter_id` is supplied, that chapter exists (capturing its
`created_at`); subscriber exists. Then inserts with
`chunk_size = coalesce(?, 1)` — a supplied value is stored verbatim, with no
lower-bound validation. `none` is the `ResourceNotFound` error path. -/
def create_subscription (books : List Book) (chapters : List Chapter)
    (subscribers : List Subscriber) (newId : Nat)
    (subscriber_id : Nat) (book_id : Nat) (chunk_size : Option Int)
    (last_delivered_chapter_id : Option Nat) : Option Subscription :=
  if (books.find? fun b => b.id == book_id).isNone then none
  else
    let cursor : Option (Option Int) :=
      match last_delivered_chapter_id with
      | none => some none
      | some cid =>
        match get_chapter chapters cid with
        | none => none
        | some ch => some (some ch.created_at)
    match cursor with
    | none => none
    | some chapter_created_at =>
      if (subscribers.find? fun s => s.id == subscriber_id).isNone then none
      else
        some
          { id := newId
            subscriber_id := subscriber_id
            book_id := book_id
            chunk_size := chunk_size.getD 1
            last_delivered_chapter_id := last_delivered_chapter_id
            last_delivered_chapter_created_at := chapter_created_at }

/-- `SubscriptionClient::update_subscription` (`src/models/subscriptions.rs`
lines 126-152), applied to the matched row:
`SET chunk_size = coalesce(?, chunk_size)` — again no validation. -/
def update_subscription (sub : Subscription) (chunk_size : Option Int) :
    Subscription :=
  { sub with chunk_size := chunk_size.getD sub.chunk_size }

/-- `SubscriptionClient::set_last_delivered_chapter`
(`src/models/subscriptions.rs` lines 189-218), applied to the matched row:
one `UPDATE` statement setting both cursor columns together. -/
def set_last_delivered_chapter (sub : Subscription) (chapter_id : Nat)
    (chapter_created_at : Int) : Subscription :=
  { sub with
    last_delivered_chapter_id := some chapter_id
    last_delivered_chapter_created_at := some chapter_created_at }

/-- The request body of `POST /createSubscription`
(`src/controllers/subscriptions.rs`, `CreateSubscriptionRequest`). -/
structure CreateSubscriptionRequest where
  subscriber_id : Nat
  book_id : Nat
  chunk_size : Option Int
  last_delivered_chapter_id : Option Nat
  deriving Repr, DecidableEq

/-- `create_subscription_handler` (`src/controllers/subscriptions.rs` lines
32-60): when the request carries no `lastDeliveredChapterId`, it defaults to
the id of `most_recent_chapter_by_created_at(book_id)`, then calls
`create_subscription`. -/
def create_subscription_handler (books : List Book) (chapters : List Chapter)
    (subscribers : List Subscriber) (newId : Nat)
    (request : CreateSubscriptionRequest) : Option Subscription :=
  let latest_chapter :=
    match request.last_delivered_chapter_id with
    | some cid => some cid
    | none => (most_recent_chapter_by_created_at chapters request.book_id).map (·.id)
  create_subscription books chapters subscribers newId
    request.subscriber_id request.book_id request.chunk_size latest_chapter

/-- The externally visible effects of one `deliver_subscription` run.
`emails_sent` records every email handed to the transactional mail provider
(`send_epub_file`), as recipient addresses. -/
structure DeliveryOutcome where
  pushover_attempts : List String
  emails_sent : List String
  subscription_after : Subscription
  deriving Repr, DecidableEq

/-- `deliver_subscription` (`src/tasks/delivery/mod.rs` lines 78-128).

The body: if `pushover_key` is set, format a message and send it via
pushover, returning early (no cursor update) when that send fails; then
unconditionally call `set_last_delivered_chapter` with the id and
`created_at` of the last chapter of the batch. No email is ever sent: the
module only declares `mod pushover;`, and `mailgun::send_epub_file` has no
caller anywhere in the crate, so `emails_sent` is always empty.

`pushoverOk` stands for the success of the pushover HTTP call. The result is
`none` exactly when `chapters` is empty, where the source panics
(`chapters[0]` / `chapters[chapters.len() - 1]` on an empty vec). A failure
of the final row update is logged and changes nothing observable to the
store beyond the absent update; the embedding models the successful update. -/
def pushover_message (book : Book) (first : Chapter) (rest : List Chapter) :
    String :=
  if rest.isEmpty then
    "Delivered new chapter for " ++ book.title ++ ": " ++ first.title
  else
    "Delivered new chapters for " ++ book.title ++ ". " ++ first.title
      ++ " through " ++ ((first :: rest).getLast (List.cons_ne_nil first rest)).title

def deliver_subscription (subscriber : Subscriber) (sub : Subscription)
    (book : Book) (chapters : List Chapter) (pushoverOk : Bool) :
    Option DeliveryOutcome :=
  match chapters with
  | [] => none
  | first :: rest =>
    let latest_chapter := (first :: rest).getLast (List.cons_ne_nil first rest)
    match subscriber.pushover_key, pushoverOk with
    | some _, false =>
      some
        { pushover_attempts := [pushover_message book first rest]
          emails_sent := []
          subscription_after := sub }
    | some _, true =>
      some
        { pushover_attempts := [pushover_message book first rest]
          emails_sent := []
          subscription_after :=
            set_last_delivered_chapter sub latest_chapter.id
              latest_chapter.created_at }
    | none, _ =>
      some
        { pushover_attempts := []
          emails_sent := []
          subscription_after :=
            set_last_delivered_chapter sub latest_chapter.id
              latest_chapter.created_at }

/-- An item of a parsed RSS channel, as exposed by the `rss` crate: each
accessor returns an `Option`. -/
structure RssItem where
  title : Option String
  link : Option String
  pubDate : Option String
  deriving Repr, DecidableEq

/-- Splits a character list at the first occurrence of `sep` (Rust
`str::split_once` on the underlying characters): `some (before, after)`
with the match removed, or `none` when `sep` never occurs. `acc` holds the
reversed prefix scanned so far. -/
def splitOnceChars (sep : List Char) : List Char → List Char →
    Option (List Char × List Char)
  | [], _ => none
  | c :: rest, acc =>
    if sep.isPrefixOf (c :: rest) then
      some (acc.reverse, (c :: rest).drop sep.length)
    else splitOnceChars sep rest (c :: acc)

/-- Rust `str::split_once(sep)` mapped to its second component: the portion
of `s` after the first occurrence of `sep`, or `none` when `sep` does not
occur. -/
def splitOnceRight (sep s : String) : Option String :=
  (splitOnceChars sep.toList s.toList []).map fun p => String.mk p.2

/-- Rust `str::rsplit_once(ch)` mapped to its second component: the portion
of `s` after the last occurrence of the character `ch`, or `none` when `ch`
does not occur. Scans the reversed character list. -/
def rsplitOnceCharRight (ch : Char) (s : String) : Option String :=
  go s.toList.reverse []
where
  go : List Char → List Char → Option String
    | [], _ => none
    | c :: rest, acc => if c = ch then some (String.mk acc) else go rest (c :: acc)

/-- Rust `str::parse::<u64>()` on a decimal string: nonempty digit string,
value below 2^64 (a leading `+`, which Rust also accepts, is not modelled). -/
def parseU64 (s : String) : Option Nat :=
  match s.toList with
  | [] => none
  | l =>
    if l.all Char.isDigit then
      let n := l.foldl (fun acc c => acc * 10 + (c.toNat - 48)) 0
      if n < 2 ^ 64 then some n else none
    else none

/-- `Option<T> > Option<T>` under Rust's derived `Ord` on `Option`
(`None < Some _`), as used by the provider cursor filters
`y.published_at.as_ref() > last_publish_date`. -/
def optionGt (a b : Option Int) : Bool :=
  match a, b with
  | none, _ => false
  | some _, none => true
  | some x, some y => y < x

/-- Collect a list of fallible values, Rust
`collect::<Result<Vec<_>, _>>()`: the first error aborts the whole list. -/
def collectResults {α : Type} : List (Option α) → Option (List α)
  | [] => some []
  | o :: rest => o.bind fun a => (collectResults rest).map (a :: ·)

namespace Royalroad

/-- `get_chapter_id_from_link` (`src/providers/royalroad.rs` lines 121-128):
`link.rsplit_once('/')` takes the portion after the LAST `/` (requiring at
least one `/`), then `parse::<u64>()` — `.ok()` collapses both failures. -/
def get_chapter_id_from_link (link : Option String) : Option Nat :=
  link.bind fun l => (rsplitOnceCharRight '/' l).bind parseU64

/-- The per-item mapping inside `Royalroad::get_chapters`
(`src/providers/royalroad.rs` lines 84-113): chapter id from the item link,
title as the portion of the item title after the first `" - "`, publish date
by RFC-2822-parsing the item `pubDate`. Any missing or unparsable piece is
an error (`none`). `parseRfc2822` abstracts
`chrono::DateTime::parse_from_rfc2822` composed with `.with_timezone(&Utc)`. -/
def item_to_new_chapter (parseRfc2822 : String → Option Int)
    (royalroad_book_id : Nat) (book_id : Nat) (item : RssItem) :
    Option NewChapter :=
  match get_chapter_id_from_link item.link with
  | none => none
  | some royalroad_chapter_id =>
    match item.title.bind (splitOnceRight " - ") with
    | none => none
    | some title =>
      match item.pubDate.bind parseRfc2822 with
      | none => none
      | some d =>
        some
          { title := title
            metadata := ChapterMetadata.royalRoad royalroad_book_id
                royalroad_chapter_id
            book_id := book_id
            html := none
            epub := none
            published_at := some d }

/-- The `.filter` closure of `Royalroad::get_chapters`: keep a successfully
mapped chapter when `published_at > last_publish_date` under `Option`
ordering, and keep every error (`Err(_) => true`). -/
def keepResult (last_publish_date : Option Int) :
    Option NewChapter → Bool
  | some c => optionGt c.published_at last_publish_date
  | none => true

/-- `Royalroad::get_chapters` (`src/providers/royalroad.rs` lines 68-119)
after the feed has been fetched and parsed into `items`: map each item,
filter by `keepResult`, then collect — so any malformed item fails the
whole call. -/
def get_chapters (parseRfc2822 : String → Option Int)
    (royalroad_book_id : Nat) (book_id : Nat) (items : List RssItem)
    (last_publish_date : Option Int) : Option (List NewChapter) :=
  collectResults
    ((items.map (item_to_new_chapter parseRfc2822 royalroad_book_id book_id)).filter
      (keepResult last_publish_date))

end Royalroad

namespace Pale

/-- One child element matched by the `div.entry-content > *` selector of a
fetched Pale chapter page, as seen through the `scraper` crate:
`idAttr` is `x.value().id()`, `texts` the descendant text nodes in order
(`x.text()`), `html` the serialized element (`x.html()`). -/
structure DomChild where
  idAttr : Option String
  texts : List String
  html : String
  deriving Repr, DecidableEq

/-- The three chained `.filter` calls of `Pale::get_chapter_body`
(`src/providers/pale.rs` lines 104-108): drop the element whose id attribute
is `jp-post-flair`, then every element having a text NODE exactly equal to
`"Next Chapter"`, then likewise `"Previous Chapter"`
(`!x.text().any(|t| t == "Next Chapter")`). -/
def kept_children (children : List DomChild) : List DomChild :=
  ((children.filter fun x => !(x.idAttr == some "jp-post-flair")).filter
      fun x => !(x.texts.contains "Next Chapter")).filter
    fun x => !(x.texts.contains "Previous Chapter")

/-- `str::trim` for the empty-after-trim check: every character is
whitespace. -/
def trimmedEmpty (s : String) : Bool :=
  s.toList.all Char.isWhitespace

/-- `itertools::join(sep)`: the pieces interspersed with `sep`. -/
def joinSep (sep : String) : List String → String
  | [] => ""
  | [x] => x
  | x :: y :: rest => x ++ sep ++ joinSep sep (y :: rest)

/-- `pat` occurs as a substring of `s`. -/
def containsSub (s pat : String) : Bool :=
  (splitOnceChars pat.toList s.toList []).isSome

/-- `Pale::get_chapter_body` (`src/providers/pale.rs` lines 98-115) after the
page has been fetched and its `div.entry-content > *` children extracted:
join the kept children's HTML with `"\n"` (`itertools::join`), and fail when
the result trims to the empty string. -/
def get_chapter_body (children : List DomChild) : Option String :=
  let body := joinSep "\n" ((kept_children children).map DomChild.html)
  if trimmedEmpty body then none else some body

/-- Modelled from the spec's words, for comparison with `Pale.get_chapter_body`
(claim C10): "concatenates the HTML of `div.entry-content > *` children,
excluding (a) the element with `id=\x22jp-post-flair\x22` and (b) any child
whose text contains \x22Next Chapter\x22 or \x22Previous Chapter\x22. Empty
body is a failure." — substring containment over the element's text, plain
concatenation. -/
def spec_chapter_body (children : List DomChild) : Option String :=
  let keep := fun (x : DomChild) =>
    !(x.idAttr == some "jp-post-flair")
      && !(containsSub (joinSep "" x.texts) "Next Chapter")
      && !(containsSub (joinSep "" x.texts) "Previous Chapter")
  let body := joinSep "" ((children.filter keep).map DomChild.html)
  if trimmedEmpty body then none else some body

end Pale

/-- One store transition performed by the background pipeline workers on the
`chapters` table (the Delivery worker writes only `subscriptions` rows and
is therefore invisible here).

* `discover`: the Discovery worker runs a provider batch through
  `create_chapters` (with an arbitrary per-row success oracle `ok`, so
  partially failed batches are reachable states too). Every `NewChapter`
  construction site in the crate (`providers/royalroad.rs`,
  `providers/pale.rs`, `providers/wandering_inn_patreon.rs`,
  `providers/apparatus_of_change_patreon.rs`) writes `epub: None`, which is
  the `hepub` side condition; `royalroad_chapters_epub_none` below proves it
  for the provider embedded in this file. `hinj`/`hnew` model `Uuid::new_v4`
  drawing ids fresh and pairwise distinct.
* `hydrate`: the Body Hydration worker takes a chapter from
  `list_chapters_without_bodies` (`WHERE html IS NULL`) and runs
  `update_chapter(id, None, Some(body), None, None)`.
* `convert`: the EPUB Conversion worker takes a chapter from
  `list_chapters_ready_for_epub_conversion`
  (`WHERE html IS NOT NULL AND epub IS NULL`), re-checks `chapter.html`
  inside `generate_chapter_epub`, and runs
  `update_chapter(id, None, None, Some(epub), None)`. -/
inductive PipelineStep : List Chapter → List Chapter → Prop
  | discover (db : List Chapter) (ncs : List NewChapter) (ids : Nat → Nat)
      (now : Int) (ok : Nat → Bool)
      (hinj : Function.Injective ids)
      (hnew : ∀ n, ∀ c ∈ db, ids n ≠ c.id)
      (hepub : ∀ nc ∈ ncs, nc.epub = none) :
      PipelineStep db (create_chapters db ncs ids now ok).1
  | hydrate (db : List Chapter) (c : Chapter) (body : Bytes)
      (hc : c ∈ db) (hhtml : c.html = none) :
      PipelineStep db (update_chapter db c.id none (some body) none none)
  | convert (db : List Chapter) (c : Chapter) (epub : Bytes)
      (hc : c ∈ db) (hhtml : c.html.isSome) (hepub : c.epub = none) :
      PipelineStep db (update_chapter db c.id none none (some epub) none)

/-- States of the `chapters` table reachable by the pipeline workers from the
empty store. -/
inductive PipelineReachable : List Chapter → Prop
  | init : PipelineReachable []
  | step {db db' : List Chapter} : PipelineReachable db →
      PipelineStep db db' → PipelineReachable db'

/-! ## Lemmas about the delivery batch query -/

/-- Concrete chapters table used by the C2 witness: two EPUB-carrying
chapters of book 1. -/
def exampleDb : List Chapter :=
  [{ id := 10, title := "c1", metadata := ChapterMetadata.pale "u1",
     book_id := 1, html := some [1], epub := some [2],
     published_at := some 5, created_at := 5 },
   { id := 11, title := "c2", metadata := ChapterMetadata.pale "u2",
     book_id := 1, html := some [1], epub := some [2],
     published_at := some 6, created_at := 6 }]

/-- Concrete subscription used by the C2 witness: book 1, `chunk_size = 2`,
unset cursor. -/
def exampleSub : Subscription :=
  { id := 0, subscriber_id := 0, book_id := 1, chunk_size := 2,
    last_delivered_chapter_id := none,
    last_delivered_chapter_created_at := none }

/-- Concrete subscriber with no pushover key. -/
def exampleSubscriber : Subscriber :=
  { id := 2, name := "s", kindle_email := none, pushover_key := none }

/-- Concrete book with id 1. -/
def exampleBook : Book :=
  { id := 1, title := "B", author := "A", metadata := BookMetadata.pale }

/-- Concrete subscription whose cursor sits at `created_at = 4`, before both
chapters of `exampleDb`. -/
def exampleSubCursor : Subscription :=
  { id := 3, subscriber_id := 2, book_id := 1, chunk_size := 1,
    last_delivered_chapter_id := some 9,
    last_delivered_chapter_created_at := some 4 }

/-- The outcome of delivering `exampleDb`'s two chapters to
`exampleSubCursor`: no pushover attempt, no email, cursor moved to chapter
11 (`created_at = 6`). -/
def exampleOutcome : DeliveryOutcome :=
  { pushover_attempts := []
    emails_sent := []
    subscription_after := set_last_delivered_chapter exampleSubCursor 11 6 }

/-- Concrete subscriber with a kindle email configured and no pushover key —
exactly the shape for which claim C1 demands an email send. -/
def exampleKindleSubscriber : Subscriber :=
  { id := 4, name := "k", kindle_email := some "x@example.com",
    pushover_key := none }

/-- Two provider chapters for book 1, used to exercise `create_chapters`. -/
def exampleNewChapter1 : NewChapter :=
  { title := "n1", metadata := ChapterMetadata.pale "p1", book_id := 1,
    html := none, epub := none, published_at := some 1 }

/-- Second provider chapter of the batch. -/
def exampleNewChapter2 : NewChapter :=
  { title := "n2", metadata := ChapterMetadata.pale "p2", book_id := 1,
    html := none, epub := none, published_at := some 2 }

/-- Invariant of the `chapters` table maintained by the pipeline: chapter
ids are unique (primary key) and every EPUB-carrying row carries HTML. -/
def ChapterTableInv (db : List Chapter) : Prop :=
  (db.map Chapter.id).Nodup ∧ ∀ c ∈ db, c.epub.isSome → c.html.isSome

/-- Provider chapter carrying an inline HTML body (like the Apparatus of
Change email provider produces). -/
def exampleInlineChapter : NewChapter :=
  { title := "inline", metadata := ChapterMetadata.apparatusOfChangePatreon,
    book_id := 1, html := some [7], epub := none, published_at := some 3 }

/-- The chapters table after discovering `exampleInlineChapter` (id 100)
and converting it (EPUB bytes `[9]`). -/
def examplePipelineDb : List Chapter :=
  update_chapter
    (create_chapters [] [exampleInlineChapter] (fun n => 100 + n) 50
      (fun _ => true)).1
    100 none none (some [9]) none

/-- A kernel-evaluable stand-in for the RFC-2822 date parser, used by the
C9 witness: decimal-digit strings as timestamps. -/
def exampleParse (s : String) : Option Int :=
  (parseU64 s).map Int.ofNat

/-- Concrete RSS item whose `pubDate` parses to 5 (at the cursor, so it is
filtered out). -/
def exampleRssItem1 : RssItem :=
  { title := some "MyBook - Chapter 1",
    link := some "https://rr.com/fiction/chapter/123", pubDate := some "5" }

/-- Concrete RSS item whose `pubDate` parses to 7 (past the cursor). -/
def exampleRssItem2 : RssItem :=
  { title := some "MyBook - Chapter 2",
    link := some "https://rr.com/fiction/chapter/456", pubDate := some "7" }

/-- The chapter discovery is expected to produce from `exampleRssItem2`. -/
def exampleRssChapter : NewChapter :=
  { title := "Chapter 2", metadata := ChapterMetadata.royalRoad 9 456,
    book_id := 1, html := none, epub := none, published_at := some 7 }

/-- Two `div.entry-content > *` children: an ordinary paragraph, and one
whose (single) text node strictly contains "Next Chapter" as a substring
without being equal to it. -/
def examplePaleChildren : List Pale.DomChild :=
  [{ idAttr := none, texts := ["alpha"], html := "<p>alpha</p>" },
   { idAttr := none, texts := ["Click Next Chapter here"],
     html := "<p>Click Next Chapter here</p>" }]

theorem cursorPasses_iff (created_at : Int) (cursor : Option Int) :
    cursorPasses created_at cursor = true ↔
      (cursor = none ∨ ∃ t, cursor = some t ∧ t < created_at) := by
  cases cursor with
  | none => simp [cursorPasses]
  | some t => simp [cursorPasses]

theorem mem_list_chapters_with_epub (db : List Chapter) (book_id : Nat)
    (cursor : Option Int) (c : Chapter) :
    c ∈ list_chapters_with_epub db book_id cursor ↔
      c ∈ db ∧ c.book_id = book_id ∧ c.epub ≠ none ∧
        (cursor = none ∨ ∃ t, cursor = some t ∧ t < c.created_at) := by
  unfold list_chapters_with_epub
  rw [(List.perm_insertionSort chapterLe _).mem_iff, List.mem_filter]
  simp only [Bool.and_eq_true, beq_iff_eq, Option.isSome_iff_ne_none,
    cursorPasses_iff]
  tauto

theorem sorted_list_chapters_with_epub (db : List Chapter) (book_id : Nat)
    (cursor : Option Int) :
    List.Sorted chapterLe (list_chapters_with_epub db book_id cursor) :=
  List.sorted_insertionSort chapterLe _

theorem i32AsUsize_of_nonneg (k : Int) (h1 : 0 ≤ k) (h2 : k < 2 ^ 64) :
    i32AsUsize k = k.toNat := by
  unfold i32AsUsize
  rw [Int.emod_eq_of_lt h1 (by exact_mod_cast h2)]

/-- C2: for every subscription (with a `chunk_size` in the valid
`1 ≤ chunk_size < 2^31` range of the data model), the delivery batch
selected by `list_chapters_with_epub` contains exactly the chapters of the
subscription's book that have an EPUB and, unless the cursor is unset, a
`created_at` strictly above the cursor; the batch is returned in ascending
`coalesce(published_at, created_at)` order; the subscription is ready if and
only if the batch size is at least `chunk_size`, so a `chunk_size` of batch
size + 1 yields no delivery. -/
theorem delivery_batch_exact (db : List Chapter) (sub : Subscription)
    (h1 : 1 ≤ sub.chunk_size) (h2 : sub.chunk_size < 2 ^ 31) :
    (∀ c, c ∈ list_chapters_with_epub db sub.book_id
        sub.last_delivered_chapter_created_at ↔
      c ∈ db ∧ c.book_id = sub.book_id ∧ c.epub ≠ none ∧
        (sub.last_delivered_chapter_created_at = none ∨
          ∃ t, sub.last_delivered_chapter_created_at = some t ∧
            t < c.created_at)) ∧
    List.Sorted chapterLe (list_chapters_with_epub db sub.book_id
      sub.last_delivered_chapter_created_at) ∧
    (subscription_ready db sub = true ↔
      sub.chunk_size ≤ (list_chapters_with_epub db sub.book_id
        sub.last_delivered_chapter_created_at).length) ∧
    (sub.chunk_size = (list_chapters_with_epub db sub.book_id
        sub.last_delivered_chapter_created_at).length + 1 →
      subscription_ready db sub = false) := by
  have h0 : (0 : Int) ≤ sub.chunk_size := le_trans (by norm_num) h1
  have hcast : i32AsUsize sub.chunk_size = sub.chunk_size.toNat :=
    i32AsUsize_of_nonneg _ h0 (lt_trans h2 (by norm_num))
  have hready : subscription_ready db sub = true ↔
      sub.chunk_size ≤ (list_chapters_with_epub db sub.book_id
        sub.last_delivered_chapter_created_at).length := by
    unfold subscription_ready
    rw [hcast, decide_eq_true_iff, Int.toNat_le]
  refine ⟨mem_list_chapters_with_epub db _ _,
    sorted_list_chapters_with_epub db _ _, hready, fun hsz => ?_⟩
  rw [Bool.eq_false_iff, Ne, hready, hsz]
  omega

/-- Witness for C2 at `exampleDb` / `exampleSub`. -/
theorem delivery_batch_exact_witness :
    1 ≤ exampleSub.chunk_size ∧ exampleSub.chunk_size < 2 ^ 31 ∧
    ((∀ c, c ∈ list_chapters_with_epub exampleDb exampleSub.book_id
        exampleSub.last_delivered_chapter_created_at ↔
      c ∈ exampleDb ∧ c.book_id = exampleSub.book_id ∧ c.epub ≠ none ∧
        (exampleSub.last_delivered_chapter_created_at = none ∨
          ∃ t, exampleSub.last_delivered_chapter_created_at = some t ∧
            t < c.created_at)) ∧
    List.Sorted chapterLe (list_chapters_with_epub exampleDb
      exampleSub.book_id exampleSub.last_delivered_chapter_created_at) ∧
    (subscription_ready exampleDb exampleSub = true ↔
      exampleSub.chunk_size ≤ (list_chapters_with_epub exampleDb
        exampleSub.book_id exampleSub.last_delivered_chapter_created_at).length) ∧
    (exampleSub.chunk_size = (list_chapters_with_epub exampleDb
        exampleSub.book_id
        exampleSub.last_delivered_chapter_created_at).length + 1 →
      subscription_ready exampleDb exampleSub = false)) :=
  ⟨by decide, by decide,
    delivery_batch_exact exampleDb exampleSub (by decide) (by decide)⟩

/-! ## Lemmas about the delivery worker -/

/-- C3: run `deliver_subscription` on the batch `find_ready_deliveries`
computed for the subscription. When a pushover key is set and the pushover
send fails, the delivery returns before any cursor update, so the
subscription row is unchanged. When delivery proceeds, the row is updated by
the single `set_last_delivered_chapter` statement to the id and `created_at`
of the last chapter of the batch, whose `created_at` strictly exceeds the
prior cursor value. Consequently the cursor never decreases. -/
theorem cursor_monotone (db : List Chapter) (subscriber : Subscriber)
    (sub : Subscription) (book : Book) (pushoverOk : Bool)
    (out : DeliveryOutcome)
    (hrun : deliver_subscription subscriber sub book
      (list_chapters_with_epub db sub.book_id
        sub.last_delivered_chapter_created_at) pushoverOk = some out) :
    (subscriber.pushover_key ≠ none → pushoverOk = false →
      out.subscription_after = sub) ∧
    ((subscriber.pushover_key = none ∨ pushoverOk = true) →
      ∃ last, (list_chapters_with_epub db sub.book_id
          sub.last_delivered_chapter_created_at).getLast? = some last ∧
        out.subscription_after =
          set_last_delivered_chapter sub last.id last.created_at ∧
        (∀ t, sub.last_delivered_chapter_created_at = some t →
          t < last.created_at)) ∧
    (∀ t t', sub.last_delivered_chapter_created_at = some t →
      out.subscription_after.last_delivered_chapter_created_at = some t' →
      t ≤ t') := by
  cases hchs : list_chapters_with_epub db sub.book_id
      sub.last_delivered_chapter_created_at with
  | nil => rw [hchs] at hrun; simp [deliver_subscription] at hrun
  | cons first rest =>
    rw [hchs] at hrun
    have hlastmem :
        (first :: rest).getLast (List.cons_ne_nil first rest) ∈
          list_chapters_with_epub db sub.book_id
            sub.last_delivered_chapter_created_at := by
      rw [hchs]; exact List.getLast_mem _
    have hlastgt : ∀ t, sub.last_delivered_chapter_created_at = some t →
        t < ((first :: rest).getLast (List.cons_ne_nil first rest)).created_at := by
      intro t ht
      have := (mem_list_chapters_with_epub db sub.book_id
        sub.last_delivered_chapter_created_at _).1 hlastmem
      rcases this.2.2.2 with hnone | ⟨t', ht', hlt⟩
      · rw [ht] at hnone; cases hnone
      · rw [ht] at ht'; cases ht'; exact hlt
    have hlast? : (first :: rest).getLast? =
        some ((first :: rest).getLast (List.cons_ne_nil first rest)) :=
      List.getLast?_eq_getLast_of_ne_nil _
    cases hok : pushoverOk with
    | false =>
      rw [hok] at hrun
      cases hkey : subscriber.pushover_key with
      | some key =>
        simp only [deliver_subscription, hkey, Option.some.injEq] at hrun
        subst hrun
        refine ⟨fun _ _ => rfl, fun h => ?_, fun t t' ht ht' => ?_⟩
        · rcases h with h | h
          · cases h
          · cases h
        · have ht'' : sub.last_delivered_chapter_created_at = some t' := ht'
          rw [ht] at ht''; cases ht''; exact le_refl t
      | none =>
        simp only [deliver_subscription, hkey, Option.some.injEq] at hrun
        subst hrun
        refine ⟨fun hk _ => absurd rfl hk, fun _ => ?_, fun t t' ht ht' => ?_⟩
        · exact ⟨_, hlast?, rfl, hlastgt⟩
        · have ht'' : some ((first :: rest).getLast
              (List.cons_ne_nil first rest)).created_at = some t' := ht'
          cases ht''
          exact le_of_lt (hlastgt t ht)
    | true =>
      rw [hok] at hrun
      cases hkey : subscriber.pushover_key with
      | some key =>
        simp only [deliver_subscription, hkey, Option.some.injEq] at hrun
        subst hrun
        refine ⟨fun _ hok' => Bool.noConfusion hok', fun _ => ?_,
          fun t t' ht ht' => ?_⟩
        · exact ⟨_, hlast?, rfl, hlastgt⟩
        · have ht'' : some ((first :: rest).getLast
              (List.cons_ne_nil first rest)).created_at = some t' := ht'
          cases ht''
          exact le_of_lt (hlastgt t ht)
      | none =>
        simp only [deliver_subscription, hkey, Option.some.injEq] at hrun
        subst hrun
        refine ⟨fun hk _ => absurd rfl hk, fun _ => ?_, fun t t' ht ht' => ?_⟩
        · exact ⟨_, hlast?, rfl, hlastgt⟩
        · have ht'' : some ((first :: rest).getLast
              (List.cons_ne_nil first rest)).created_at = some t' := ht'
          cases ht''
          exact le_of_lt (hlastgt t ht)

/-- Witness for C3: the concrete delivery run above satisfies the theorem's
hypothesis, and the cursor does not decrease. -/
theorem cursor_monotone_witness :
    deliver_subscription exampleSubscriber exampleSubCursor exampleBook
      (list_chapters_with_epub exampleDb exampleSubCursor.book_id
        exampleSubCursor.last_delivered_chapter_created_at) true =
      some exampleOutcome ∧
    (∀ t t', exampleSubCursor.last_delivered_chapter_created_at = some t →
      exampleOutcome.subscription_after.last_delivered_chapter_created_at =
        some t' → t ≤ t') :=
  ⟨by decide,
    (cursor_monotone exampleDb exampleSubscriber exampleSubCursor exampleBook
      true exampleOutcome (by decide)).2.2⟩

/-- Counterexample to C7: a ready delivery for a subscriber with neither
`kindle_email` nor `pushover_key` is not a no-op — processing it changes
the subscription row (the cursor advances to chapter 11). -/
theorem no_channel_noop_counterexample :
    exampleSubscriber.kindle_email = none ∧
    exampleSubscriber.pushover_key = none ∧
    deliver_subscription exampleSubscriber exampleSubCursor exampleBook
      (list_chapters_with_epub exampleDb exampleSubCursor.book_id
        exampleSubCursor.last_delivered_chapter_created_at) true =
      some exampleOutcome ∧
    exampleOutcome.subscription_after ≠ exampleSubCursor := by
  refine ⟨rfl, rfl, by decide, by decide⟩

/-- C7 (amended): for every ready delivery whose subscriber has neither
`kindle_email` nor `pushover_key` set, processing sends nothing (no pushover
attempt, no email) but still advances the subscription's cursor to the last
chapter of the batch — it is not a no-op on the subscription row. -/
theorem no_channel_still_advances (subscriber : Subscriber)
    (sub : Subscription) (book : Book) (chapters : List Chapter)
    (pushoverOk : Bool) (out : DeliveryOutcome)
    (_hkindle : subscriber.kindle_email = none)
    (hpush : subscriber.pushover_key = none)
    (hrun : deliver_subscription subscriber sub book chapters pushoverOk =
      some out) :
    out.pushover_attempts = [] ∧ out.emails_sent = [] ∧
    ∃ last, chapters.getLast? = some last ∧
      out.subscription_after =
        set_last_delivered_chapter sub last.id last.created_at := by
  cases chapters with
  | nil => simp [deliver_subscription] at hrun
  | cons first rest =>
    simp only [deliver_subscription, hpush, Option.some.injEq] at hrun
    subst hrun
    exact ⟨rfl, rfl, _, List.getLast?_eq_getLast_of_ne_nil _, rfl⟩

/-- Witness for the amended C7 at the concrete channel-less delivery. -/
theorem no_channel_still_advances_witness :
    exampleSubscriber.kindle_email = none ∧
    exampleSubscriber.pushover_key = none ∧
    deliver_subscription exampleSubscriber exampleSubCursor exampleBook
      (list_chapters_with_epub exampleDb exampleSubCursor.book_id
        exampleSubCursor.last_delivered_chapter_created_at) true =
      some exampleOutcome ∧
    (exampleOutcome.pushover_attempts = [] ∧
      exampleOutcome.emails_sent = [] ∧
      ∃ last, (list_chapters_with_epub exampleDb exampleSubCursor.book_id
          exampleSubCursor.last_delivered_chapter_created_at).getLast? =
          some last ∧
        exampleOutcome.subscription_after =
          set_last_delivered_chapter exampleSubCursor last.id
            last.created_at) :=
  ⟨rfl, rfl, by decide,
    no_channel_still_advances exampleSubscriber exampleSubCursor exampleBook
      _ true exampleOutcome rfl rfl (by decide)⟩

/-- C1 (the code's actual behaviour, refuting the claim): `deliver_subscription`
hands nothing to the mail provider — `mailgun::send_epub_file` has no caller —
and, when no pushover key is set, unconditionally advances the cursor to the
last chapter of the batch, email or no email. So for a subscriber with
`kindle_email` set, the batch is never emailed yet the cursor advances. -/
theorem delivery_sends_no_email (subscriber : Subscriber)
    (sub : Subscription) (book : Book) (chapters : List Chapter)
    (pushoverOk : Bool) (out : DeliveryOutcome)
    (hrun : deliver_subscription subscriber sub book chapters pushoverOk =
      some out) :
    out.emails_sent = [] ∧
    (subscriber.pushover_key = none →
      ∃ last, chapters.getLast? = some last ∧
        out.subscription_after =
          set_last_delivered_chapter sub last.id last.created_at) := by
  cases chapters with
  | nil => simp [deliver_subscription] at hrun
  | cons first rest =>
    cases hkey : subscriber.pushover_key with
    | some key =>
      cases pushoverOk with
      | false =>
        simp only [deliver_subscription, hkey, Option.some.injEq] at hrun
        subst hrun
        exact ⟨rfl, fun hnone => Option.noConfusion hnone⟩
      | true =>
        simp only [deliver_subscription, hkey, Option.some.injEq] at hrun
        subst hrun
        exact ⟨rfl, fun hnone => Option.noConfusion hnone⟩
    | none =>
      simp only [deliver_subscription, hkey, Option.some.injEq] at hrun
      subst hrun
      exact ⟨rfl, fun _ => ⟨_, List.getLast?_eq_getLast_of_ne_nil _, rfl⟩⟩

/-- Witness for C1's refutation at the failing input: subscriber with
`kindle_email = some "x@example.com"`, a ready two-chapter batch — no email
is sent and the cursor still advances. -/
theorem delivery_sends_no_email_witness :
    exampleKindleSubscriber.kindle_email = some "x@example.com" ∧
    deliver_subscription exampleKindleSubscriber exampleSubCursor exampleBook
      (list_chapters_with_epub exampleDb exampleSubCursor.book_id
        exampleSubCursor.last_delivered_chapter_created_at) true =
      some exampleOutcome ∧
    (exampleOutcome.emails_sent = [] ∧
      (exampleKindleSubscriber.pushover_key = none →
        ∃ last, (list_chapters_with_epub exampleDb exampleSubCursor.book_id
            exampleSubCursor.last_delivered_chapter_created_at).getLast? =
            some last ∧
          exampleOutcome.subscription_after =
            set_last_delivered_chapter exampleSubCursor last.id
              last.created_at)) :=
  ⟨rfl, by decide,
    delivery_sends_no_email exampleKindleSubscriber exampleSubCursor
      exampleBook _ true exampleOutcome (by decide)⟩

/-- Counterexample to C8: `create_subscription` with a caller-supplied
`chunk_size` of 0 stores 0, violating `chunk_size ≥ 1`. -/
theorem chunk_size_validation_counterexample :
    (create_subscription [exampleBook] [] [exampleSubscriber] 7 2 1
        (some 0) none).map Subscription.chunk_size = some 0 ∧
    ¬ (1 : Int) ≤ 0 := by decide

/-- C8 (amended): creating a subscription without a `chunk_size` defaults it
to 1 (SQL `coalesce(?, 1)`), but a caller-supplied `chunk_size` is stored
verbatim by both `create_subscription` and `update_subscription`, with no
lower-bound validation anywhere — values below 1 are stored as given. -/
theorem chunk_size_stored_verbatim (books : List Book)
    (chapters : List Chapter) (subscribers : List Subscriber)
    (newId sid bid : Nat) (k : Int) (sub sub' : Subscription)
    (hdef : create_subscription books chapters subscribers newId sid bid
      none none = some sub)
    (hsup : create_subscription books chapters subscribers newId sid bid
      (some k) none = some sub') :
    sub.chunk_size = 1 ∧ sub'.chunk_size = k ∧
    (update_subscription sub (some k)).chunk_size = k ∧
    (update_subscription sub none).chunk_size = sub.chunk_size := by
  simp only [create_subscription] at hdef hsup
  refine ⟨?_, ?_, rfl, rfl⟩
  · split at hdef
    · cases hdef
    · split at hdef
      · cases hdef
      · cases hdef; rfl
  · split at hsup
    · cases hsup
    · split at hsup
      · cases hsup
      · cases hsup; rfl

/-- Witness for the amended C8: book 1 and subscriber 2 exist; the default
path stores `chunk_size = 1` and a supplied `chunk_size = 0` is stored
verbatim. -/
theorem chunk_size_stored_verbatim_witness :
    create_subscription [exampleBook] [] [exampleSubscriber] 7 2 1
        none none =
      some { id := 7, subscriber_id := 2, book_id := 1, chunk_size := 1,
             last_delivered_chapter_id := none,
             last_delivered_chapter_created_at := none } ∧
    create_subscription [exampleBook] [] [exampleSubscriber] 7 2 1
        (some 0) none =
      some { id := 7, subscriber_id := 2, book_id := 1, chunk_size := 0,
             last_delivered_chapter_id := none,
             last_delivered_chapter_created_at := none } ∧
    ({ id := 7, subscriber_id := 2, book_id := 1, chunk_size := 1,
       last_delivered_chapter_id := none,
       last_delivered_chapter_created_at := none } : Subscription).chunk_size
        = 1 ∧
    ({ id := 7, subscriber_id := 2, book_id := 1, chunk_size := 0,
       last_delivered_chapter_id := none,
       last_delivered_chapter_created_at := none } : Subscription).chunk_size
        = 0 :=
  ⟨by decide, by decide,
    (chunk_size_stored_verbatim [exampleBook] [] [exampleSubscriber] 7 2 1 0
      { id := 7, subscriber_id := 2, book_id := 1, chunk_size := 1,
        last_delivered_chapter_id := none,
        last_delivered_chapter_created_at := none }
      { id := 7, subscriber_id := 2, book_id := 1, chunk_size := 0,
        last_delivered_chapter_id := none,
        last_delivered_chapter_created_at := none }
      (by decide) (by decide)).1,
    (chunk_size_stored_verbatim [exampleBook] [] [exampleSubscriber] 7 2 1 0
      { id := 7, subscriber_id := 2, book_id := 1, chunk_size := 1,
        last_delivered_chapter_id := none,
        last_delivered_chapter_created_at := none }
      { id := 7, subscriber_id := 2, book_id := 1, chunk_size := 0,
        last_delivered_chapter_id := none,
        last_delivered_chapter_created_at := none }
      (by decide) (by decide)).2.1⟩

/-! ## C4: the discovery batch insert is not atomic -/

/-- C4 (refuted on the code): insert a two-row batch into an empty store
where the second row insert fails. `create_chapters` reports the error
(`false`), yet the first row remains in the store: because every `INSERT`
runs on `&self.pool` rather than on the begun transaction, the rollback
undoes nothing, so the batch is not atomic. -/
theorem create_chapters_not_atomic :
    create_chapters [] [exampleNewChapter1, exampleNewChapter2]
        (fun i => 100 + i) 50 (fun i => i == 0) =
      ([insertNewChapter 100 50 exampleNewChapter1], false) ∧
    (create_chapters [] [exampleNewChapter1, exampleNewChapter2]
        (fun i => 100 + i) 50 (fun i => i == 0)).1 ≠ [] := by
  exact ⟨by decide, by decide⟩

/-! ## C5: initial subscription cursor -/

theorem find?_id_eq_of_mem_nodup {l : List Chapter} {c : Chapter}
    (hmem : c ∈ l) (hnodup : (l.map Chapter.id).Nodup) :
    l.find? (fun x => x.id == c.id) = some c := by
  induction l with
  | nil => cases hmem
  | cons hd tl ih =>
    rcases List.mem_cons.1 hmem with rfl | hmem'
    · exact List.find?_cons_of_pos _ (by simp)
    · have hne : ¬ (hd.id == c.id) = true := by
        simp only [beq_iff_eq]
        intro he
        have hcin : c.id ∈ tl.map Chapter.id := List.mem_map_of_mem _ hmem'
        exact (List.nodup_cons.1 hnodup).1 (he ▸ hcin)
      have hfalse : (hd.id == c.id) = false := by simpa using hne
      simp only [List.find?, hfalse]
      exact ih hmem' (List.nodup_cons.1 hnodup).2

theorem most_recent_chapter_spec (db : List Chapter) (bid : Nat)
    (ch : Chapter) (h : most_recent_chapter_by_created_at db bid = some ch) :
    ch ∈ db ∧ ch.book_id = bid ∧
      ∀ c ∈ db, c.book_id = bid → c.created_at ≤ ch.created_at := by
  unfold most_recent_chapter_by_created_at at h
  have hsorted : List.Sorted createdGe
      (List.insertionSort createdGe (db.filter fun c => c.book_id == bid)) :=
    List.sorted_insertionSort createdGe _
  have hperm := List.perm_insertionSort createdGe
    (db.filter fun c => c.book_id == bid)
  cases hs : List.insertionSort createdGe
      (db.filter fun c => c.book_id == bid) with
  | nil => rw [hs] at h; cases h
  | cons hd tl =>
    rw [hs] at h hsorted hperm
    cases h
    have hhdfil : ch ∈ db.filter fun c => c.book_id == bid :=
      hperm.subset (List.mem_cons_self ch tl)
    have hhd := List.mem_filter.1 hhdfil
    refine ⟨hhd.1, by simpa using hhd.2, fun c hc hcb => ?_⟩
    have hcfil : c ∈ db.filter fun x => x.book_id == bid :=
      List.mem_filter.2 ⟨hc, by simpa using hcb⟩
    have hcsort : c ∈ ch :: tl := hperm.symm.subset hcfil
    rcases List.mem_cons.1 hcsort with rfl | hctl
    · exact le_refl _
    · exact List.rel_of_sorted_cons hsorted c hctl

theorem most_recent_chapter_none_iff (db : List Chapter) (bid : Nat) :
    most_recent_chapter_by_created_at db bid = none ↔
      ∀ c ∈ db, c.book_id ≠ bid := by
  unfold most_recent_chapter_by_created_at
  rw [List.head?_eq_none_iff]
  have hperm := List.perm_insertionSort createdGe
    (db.filter fun c => c.book_id == bid)
  constructor
  · intro h
    rw [h] at hperm
    have hfil : db.filter (fun c => c.book_id == bid) = [] :=
      hperm.symm.eq_nil
    intro c hc hcb
    have : c ∈ db.filter fun x => x.book_id == bid :=
      List.mem_filter.2 ⟨hc, by simpa using hcb⟩
    rw [hfil] at this
    cases this
  · intro h
    have hfil : db.filter (fun c => c.book_id == bid) = [] := by
      rw [List.filter_eq_nil_iff]
      intro c hc
      simpa using h c hc
    rw [hfil]
    rfl

theorem create_subscription_no_cursor (books : List Book)
    (chapters : List Chapter) (subscribers : List Subscriber)
    (newId sid bid : Nat) (cs : Option Int) (b : Book) (s : Subscriber)
    (hb : books.find? (fun x => x.id == bid) = some b)
    (hs : subscribers.find? (fun x => x.id == sid) = some s) :
    create_subscription books chapters subscribers newId sid bid cs none =
      some { id := newId, subscriber_id := sid, book_id := bid,
             chunk_size := cs.getD 1, last_delivered_chapter_id := none,
             last_delivered_chapter_created_at := none } := by
  unfold create_subscription
  rw [hb, hs]
  rfl

theorem create_subscription_with_cursor (books : List Book)
    (chapters : List Chapter) (subscribers : List Subscriber)
    (newId sid bid cid : Nat) (cs : Option Int) (b : Book) (s : Subscriber)
    (ch : Chapter)
    (hb : books.find? (fun x => x.id == bid) = some b)
    (hs : subscribers.find? (fun x => x.id == sid) = some s)
    (hch : get_chapter chapters cid = some ch) :
    create_subscription books chapters subscribers newId sid bid cs
        (some cid) =
      some { id := newId, subscriber_id := sid, book_id := bid,
             chunk_size := cs.getD 1,
             last_delivered_chapter_id := some cid,
             last_delivered_chapter_created_at := some ch.created_at } := by
  unfold create_subscription
  rw [hb, hs]
  simp only [hch]
  rfl

/-- C5: creating a subscription whose request carries no
`lastDeliveredChapterId` initializes the cursor pair from the book's most
recent chapter ordered by `created_at` alone — both the chapter id and its
`created_at`, keeping the denormalized pair consistent — and to `(None,
None)` when the book has no chapters. (The chapter-id `Nodup` hypothesis is
the primary-key uniqueness of the `chapters` table.) -/
theorem subscription_initial_cursor (books : List Book)
    (chapters : List Chapter) (subscribers : List Subscriber)
    (newId sid bid : Nat) (cs : Option Int) (b : Book) (s : Subscriber)
    (hb : books.find? (fun x => x.id == bid) = some b)
    (hs : subscribers.find? (fun x => x.id == sid) = some s)
    (hids : (chapters.map Chapter.id).Nodup) :
    ∃ sub, create_subscription_handler books chapters subscribers newId
        { subscriber_id := sid, book_id := bid, chunk_size := cs,
          last_delivered_chapter_id := none } = some sub ∧
      sub.last_delivered_chapter_id =
        (most_recent_chapter_by_created_at chapters bid).map Chapter.id ∧
      sub.last_delivered_chapter_created_at =
        (most_recent_chapter_by_created_at chapters bid).map
          Chapter.created_at ∧
      (∀ ch, most_recent_chapter_by_created_at chapters bid = some ch →
        ch ∈ chapters ∧ ch.book_id = bid ∧
          ∀ c ∈ chapters, c.book_id = bid → c.created_at ≤ ch.created_at) ∧
      (most_recent_chapter_by_created_at chapters bid = none ↔
        ∀ c ∈ chapters, c.book_id ≠ bid) := by
  have hred : create_subscription_handler books chapters subscribers newId
      { subscriber_id := sid, book_id := bid, chunk_size := cs,
        last_delivered_chapter_id := none } =
      create_subscription books chapters subscribers newId sid bid cs
        ((most_recent_chapter_by_created_at chapters bid).map (·.id)) := rfl
  cases hmr : most_recent_chapter_by_created_at chapters bid with
  | none =>
    refine ⟨{ id := newId, subscriber_id := sid, book_id := bid,
              chunk_size := cs.getD 1, last_delivered_chapter_id := none,
              last_delivered_chapter_created_at := none }, ?_, rfl, rfl,
      fun ch hch => Option.noConfusion hch,
      ⟨fun _ => (most_recent_chapter_none_iff chapters bid).1 hmr,
        fun _ => rfl⟩⟩
    rw [hred, hmr]
    exact create_subscription_no_cursor books chapters subscribers newId sid
      bid cs b s hb hs
  | some ch =>
    have hspec := most_recent_chapter_spec chapters bid ch hmr
    have hget : get_chapter chapters ch.id = some ch :=
      find?_id_eq_of_mem_nodup hspec.1 hids
    refine ⟨{ id := newId, subscriber_id := sid, book_id := bid,
              chunk_size := cs.getD 1,
              last_delivered_chapter_id := some ch.id,
              last_delivered_chapter_created_at := some ch.created_at },
      ?_, rfl, rfl, fun ch' hch' => ?_,
      ⟨fun h => Option.noConfusion h, fun hall => ?_⟩⟩
    · rw [hred, hmr]
      exact create_subscription_with_cursor books chapters subscribers newId
        sid bid ch.id cs b s ch hb hs hget
    · injection hch' with h
      cases h
      exact hspec
    · have hnone := (most_recent_chapter_none_iff chapters bid).2 hall
      rw [hmr] at hnone
      exact hnone

/-- Witness for C5: book 1 with chapters 10 and 11 (`created_at` 5 and 6);
creating a subscription without a cursor initializes it from chapter 11. -/
theorem subscription_initial_cursor_witness :
    List.find? (fun x => x.id == 1) [exampleBook] = some exampleBook ∧
    List.find? (fun x => x.id == 2) [exampleSubscriber] =
      some exampleSubscriber ∧
    (exampleDb.map Chapter.id).Nodup ∧
    (∃ sub, create_subscription_handler [exampleBook] exampleDb
        [exampleSubscriber] 7
        { subscriber_id := 2, book_id := 1, chunk_size := none,
          last_delivered_chapter_id := none } = some sub ∧
      sub.last_delivered_chapter_id =
        (most_recent_chapter_by_created_at exampleDb 1).map Chapter.id ∧
      sub.last_delivered_chapter_created_at =
        (most_recent_chapter_by_created_at exampleDb 1).map
          Chapter.created_at ∧
      (∀ ch, most_recent_chapter_by_created_at exampleDb 1 = some ch →
        ch ∈ exampleDb ∧ ch.book_id = 1 ∧
          ∀ c ∈ exampleDb, c.book_id = 1 → c.created_at ≤ ch.created_at) ∧
      (most_recent_chapter_by_created_at exampleDb 1 = none ↔
        ∀ c ∈ exampleDb, c.book_id ≠ 1)) :=
  ⟨by decide, by decide, by decide,
    subscription_initial_cursor [exampleBook] exampleDb [exampleSubscriber]
      7 2 1 none exampleBook exampleSubscriber (by decide) (by decide)
      (by decide)⟩

/-! ## C6: pipeline invariant `epub = Some → html = Some` -/

theorem create_chapters_go_inv (ids : Nat → Nat) (now : Int)
    (ok : Nat → Bool) (hinj : Function.Injective ids) :
    ∀ (ncs : List NewChapter) (db : List Chapter) (i : Nat),
      (∀ nc ∈ ncs, nc.epub = none) →
      (∀ n, i ≤ n → ∀ c ∈ db, ids n ≠ c.id) →
      ChapterTableInv db →
      ChapterTableInv (create_chapters.go ids now ok db ncs i).1 := by
  intro ncs
  induction ncs with
  | nil =>
    intro db i _ _ hinv
    simpa [create_chapters.go] using hinv
  | cons nc rest ih =>
    intro db i hepub hfresh hinv
    by_cases hok : ok i = true
    · have hrow : ChapterTableInv (db ++ [insertNewChapter (ids i) now nc]) := by
        constructor
        · rw [List.map_append]
          refine List.Nodup.append hinv.1 (by simp) ?_
          intro a ha hb
          simp only [List.map_cons, List.map_nil, List.mem_singleton] at hb
          rcases List.mem_map.1 ha with ⟨c, hc, hca⟩
          have hb' : a = ids i := hb
          exact hfresh i (le_refl i) c hc (hb' ▸ hca.symm)
        · intro c hc he
          rcases List.mem_append.1 hc with h | h
          · exact hinv.2 c h he
          · simp only [List.mem_singleton] at h
            subst h
            have : nc.epub = none := hepub nc (List.mem_cons_self nc rest)
            rw [insertNewChapter] at he
            simp only [this] at he
            cases he
      have hfresh' : ∀ n, i + 1 ≤ n →
          ∀ c ∈ db ++ [insertNewChapter (ids i) now nc], ids n ≠ c.id := by
        intro n hn c hc
        rcases List.mem_append.1 hc with h | h
        · exact hfresh n (le_trans (Nat.le_succ i) hn) c h
        · simp only [List.mem_singleton] at h
          subst h
          intro he
          have := hinj he
          omega
      have hres := ih (db ++ [insertNewChapter (ids i) now nc]) (i + 1)
        (fun x hx => hepub x (List.mem_cons_of_mem _ hx)) hfresh' hrow
      simpa [create_chapters.go, hok] using hres
    · simpa [create_chapters.go, hok] using hinv

theorem update_chapter_map_id (db : List Chapter) (id : Nat)
    (title : Option String) (html epub : Option Bytes)
    (published_at : Option Int) :
    (update_chapter db id title html epub published_at).map Chapter.id =
      db.map Chapter.id := by
  unfold update_chapter
  rw [List.map_map]
  apply List.map_congr_left
  intro c _
  by_cases hid : c.id = id <;> simp [hid]

theorem update_chapter_mem (db : List Chapter) (id : Nat)
    (title : Option String) (html epub : Option Bytes)
    (published_at : Option Int) (d : Chapter)
    (hd : d ∈ update_chapter db id title html epub published_at) :
    ∃ c ∈ db, d = if c.id = id then
      { c with
        title := title.getD c.title
        html := html.or c.html
        epub := epub.or c.epub
        published_at := published_at.or c.published_at }
      else c := by
  rcases List.mem_map.1 hd with ⟨c, hc, hcd⟩
  exact ⟨c, hc, hcd.symm⟩

/-- The table invariant is preserved by every pipeline worker step. -/
theorem pipeline_step_inv {db db' : List Chapter} (hstep : PipelineStep db db')
    (hinv : ChapterTableInv db) : ChapterTableInv db' := by
  cases hstep with
  | discover ncs ids now ok hinj hnew hepub =>
    exact create_chapters_go_inv ids now ok hinj ncs db 0 hepub
      (fun n _ => hnew n) hinv
  | hydrate c body hc hhtml =>
    constructor
    · rw [update_chapter_map_id]; exact hinv.1
    · intro d hd he
      rcases update_chapter_mem db c.id none (some body) none none d hd with
        ⟨c', hc', hform⟩
      by_cases hid : c'.id = c.id
      · rw [hform, if_pos hid] at he ⊢
        simp
      · rw [hform, if_neg hid] at he ⊢
        exact hinv.2 c' hc' he
  | convert c epub hc hhtml hepub =>
    constructor
    · rw [update_chapter_map_id]; exact hinv.1
    · intro d hd he
      rcases update_chapter_mem db c.id none none (some epub) none d hd with
        ⟨c', hc', hform⟩
      by_cases hid : c'.id = c.id
      · have hcc : c' = c := List.inj_on_of_nodup_map hinv.1 hc' hc hid
        subst hcc
        rw [hform, if_pos hid]
        simpa using hhtml
      · rw [hform, if_neg hid] at he ⊢
        exact hinv.2 c' hc' he

theorem pipeline_reachable_inv {db : List Chapter}
    (h : PipelineReachable db) : ChapterTableInv db := by
  induction h with
  | init => exact ⟨by simp, fun c hc => absurd hc (List.not_mem_nil c)⟩
  | step _ hstep ih => exact pipeline_step_inv hstep ih

/-- C6: in every state of the `chapters` table reachable by the pipeline
workers from the empty store, every chapter with `epub = Some` also has
`html = Some`: Discovery only inserts provider rows with `epub = None`,
Hydration writes only `html`, and Conversion — which selects chapters whose
`html` is already set and re-checks it — writes only the `epub` field. -/
theorem epub_implies_html (db : List Chapter) (hreach : PipelineReachable db) :
    ∀ c ∈ db, c.epub.isSome → c.html.isSome :=
  (pipeline_reachable_inv hreach).2

theorem examplePipelineDb_reachable : PipelineReachable examplePipelineDb := by
  have h0 : PipelineReachable [] := PipelineReachable.init
  have h1 : PipelineReachable
      (create_chapters [] [exampleInlineChapter] (fun n => 100 + n) 50
        (fun _ => true)).1 :=
    PipelineReachable.step h0
      (PipelineStep.discover [] [exampleInlineChapter] (fun n => 100 + n) 50
        (fun _ => true) (fun a b hab => Nat.add_left_cancel hab)
        (fun n c hc => absurd hc (List.not_mem_nil c)) (by decide))
  have h2 := PipelineReachable.step h1
    (PipelineStep.convert _ (insertNewChapter 100 50 exampleInlineChapter)
      [9] (by decide) (by decide) (by decide))
  exact h2

/-- Witness for C6: the concrete two-step pipeline run above is reachable,
and in its final table every EPUB-carrying chapter carries HTML. -/
theorem epub_implies_html_witness :
    PipelineReachable examplePipelineDb ∧
    (∀ c ∈ examplePipelineDb, c.epub.isSome → c.html.isSome) ∧
    ∃ c ∈ examplePipelineDb, c.epub.isSome :=
  ⟨examplePipelineDb_reachable,
    epub_implies_html examplePipelineDb examplePipelineDb_reachable,
    ⟨{ id := 100, title := "inline",
       metadata := ChapterMetadata.apparatusOfChangePatreon, book_id := 1,
       html := some [7], epub := some [9], published_at := some 3,
       created_at := 50 }, by decide, by decide⟩⟩

/-! ## C9: Royal Road discovery -/

theorem collect_keep_spec (cursor : Option Int) :
    ∀ (rs : List (Option NewChapter)) (l : List NewChapter),
      collectResults (rs.filter (Royalroad.keepResult cursor)) = some l →
      (∀ r ∈ rs, r ≠ none) ∧
        l = (rs.filterMap id).filter
          (fun c => optionGt c.published_at cursor) := by
  intro rs
  induction rs with
  | nil =>
    intro l h
    simp only [List.filter_nil, collectResults, Option.some.injEq] at h
    subst h
    exact ⟨fun r hr => absurd hr (List.not_mem_nil r), by simp⟩
  | cons r rest ih =>
    intro l h
    cases r with
    | none =>
      rw [List.filter_cons_of_pos rfl] at h
      simp only [collectResults, Option.none_bind] at h
      cases h
    | some c =>
      by_cases hp : optionGt c.published_at cursor = true
      · have hp' : Royalroad.keepResult cursor (some c) = true := hp
        rw [List.filter_cons_of_pos hp'] at h
        simp only [collectResults, Option.some_bind] at h
        cases hrest : collectResults (rest.filter (Royalroad.keepResult cursor)) with
        | none => rw [hrest] at h; cases h
        | some l' =>
          rw [hrest] at h
          simp only [Option.map_some', Option.some.injEq] at h
          subst h
          obtain ⟨hne, hl'⟩ := ih l' hrest
          refine ⟨fun r hr => ?_, ?_⟩
          · rcases List.mem_cons.1 hr with rfl | hr'
            · exact fun hcon => Option.noConfusion hcon
            · exact hne r hr'
          · simp only [List.filterMap_cons, id, List.filter_cons, hp,
              if_true, hl']
      · have hp' : ¬ Royalroad.keepResult cursor (some c) = true := hp
        rw [List.filter_cons_of_neg hp'] at h
        obtain ⟨hne, hl⟩ := ih l h
        refine ⟨fun r hr => ?_, ?_⟩
        · rcases List.mem_cons.1 hr with rfl | hr'
          · exact fun hcon => Option.noConfusion hcon
          · exact hne r hr'
        · simp [List.filterMap_cons, List.filter_cons, hp, hl]

theorem item_to_new_chapter_inv (parse : String → Option Int)
    (rr bid : Nat) (it : RssItem) (c : NewChapter)
    (h : Royalroad.item_to_new_chapter parse rr bid it = some c) :
    ∃ t lk pd d cid, it.title = some t ∧ it.link = some lk ∧
      it.pubDate = some pd ∧ parse pd = some d ∧
      Royalroad.get_chapter_id_from_link (some lk) = some cid ∧
      splitOnceRight " - " t = some c.title ∧
      c.metadata = ChapterMetadata.royalRoad rr cid ∧
      c.book_id = bid ∧ c.html = none ∧ c.epub = none ∧
      c.published_at = some d := by
  unfold Royalroad.item_to_new_chapter at h
  cases h1 : Royalroad.get_chapter_id_from_link it.link with
  | none => rw [h1] at h; cases h
  | some cid =>
  rw [h1] at h
  cases h2 : it.title.bind (splitOnceRight " - ") with
  | none => rw [h2] at h; cases h
  | some t' =>
  rw [h2] at h
  cases h3 : it.pubDate.bind parse with
  | none => rw [h3] at h; cases h
  | some d =>
  rw [h3] at h
  cases h
  cases hlk : it.link with
  | none => rw [hlk] at h1; cases h1
  | some lk =>
  cases hti : it.title with
  | none => rw [hti] at h2; cases h2
  | some t =>
  cases hpd : it.pubDate with
  | none => rw [hpd] at h3; cases h3
  | some pd =>
  rw [hlk] at h1
  rw [hti] at h2
  rw [hpd] at h3
  exact ⟨t, lk, pd, d, cid, rfl, rfl, rfl, h3, h1, h2, rfl, rfl, rfl, rfl, rfl⟩

/-- Every chapter returned by the embedded Royal Road provider has
`epub = None` (this is the side condition `PipelineStep.discover` asks of
provider batches). -/
theorem royalroad_chapters_epub_none (parse : String → Option Int)
    (rr bid : Nat) (items : List RssItem) (cursor : Option Int)
    (l : List NewChapter)
    (h : Royalroad.get_chapters parse rr bid items cursor = some l) :
    ∀ c ∈ l, c.epub = none := by
  intro c hc
  unfold Royalroad.get_chapters at h
  obtain ⟨-, hl⟩ := collect_keep_spec cursor _ l h
  subst hl
  rcases List.mem_filterMap.1 (List.mem_filter.1 hc).1 with ⟨r, hr, hrc⟩
  rcases List.mem_map.1 hr with ⟨it, _, hit⟩
  subst hit
  obtain ⟨t, lk, pd, d, cid, h1, h2, h3, h4, h5, h6, h7, h8, h9, h10, h11⟩ :=
    item_to_new_chapter_inv parse rr bid it c hrc
  exact h10

/-- C9: whenever the Royal Road provider succeeds, the returned
`NewChapter`s are exactly the mapped feed items whose parsed RFC-2822
`pubDate` is strictly greater than the cursor (all items when the cursor is
`None`, by `Option` ordering), every feed item maps successfully, and each
returned chapter carries the portion of the item title after `" - "` as its
title, the numeric last path segment of the item link as its
`royalroad_chapter_id`, and the parsed `pubDate` as `published_at`. -/
theorem royalroad_discovery_exact (parse : String → Option Int)
    (rrBookId bookId : Nat) (items : List RssItem) (cursor : Option Int)
    (l : List NewChapter)
    (h : Royalroad.get_chapters parse rrBookId bookId items cursor = some l) :
    (∀ it ∈ items,
      Royalroad.item_to_new_chapter parse rrBookId bookId it ≠ none) ∧
    l = (items.filterMap
        (Royalroad.item_to_new_chapter parse rrBookId bookId)).filter
      (fun c => optionGt c.published_at cursor) ∧
    (∀ c ∈ l, optionGt c.published_at cursor = true ∧
      ∃ it ∈ items, ∃ t lk pd d cid,
        it.title = some t ∧ it.link = some lk ∧ it.pubDate = some pd ∧
        parse pd = some d ∧
        Royalroad.get_chapter_id_from_link (some lk) = some cid ∧
        splitOnceRight " - " t = some c.title ∧
        c.metadata = ChapterMetadata.royalRoad rrBookId cid ∧
        c.book_id = bookId ∧ c.html = none ∧ c.epub = none ∧
        c.published_at = some d) := by
  unfold Royalroad.get_chapters at h
  obtain ⟨hne, hl⟩ := collect_keep_spec cursor _ l h
  have hall : ∀ it ∈ items,
      Royalroad.item_to_new_chapter parse rrBookId bookId it ≠ none :=
    fun it hit => hne _ (List.mem_map_of_mem _ hit)
  have hmapeq : ((items.map
      (Royalroad.item_to_new_chapter parse rrBookId bookId)).filterMap id) =
      items.filterMap (Royalroad.item_to_new_chapter parse rrBookId bookId) := by
    rw [List.filterMap_map]
    rfl
  refine ⟨hall, by rw [hl, hmapeq], fun c hc => ?_⟩
  rw [hl, hmapeq] at hc
  have hc' := List.mem_filter.1 hc
  refine ⟨hc'.2, ?_⟩
  rcases List.mem_filterMap.1 hc'.1 with ⟨it, hit, hitc⟩
  obtain ⟨t, lk, pd, d, cid, h1, h2, h3, h4, h5, h6, h7, h8, h9, h10, h11⟩ :=
    item_to_new_chapter_inv parse rrBookId bookId it c hitc
  exact ⟨it, hit, t, lk, pd, d, cid, h1, h2, h3, h4, h5, h6, h7, h8, h9,
    h10, h11⟩

/-- Witness for C9: with a decimal date parser and cursor 6, the feed above
yields exactly the chapter derived from item 2. -/
theorem royalroad_discovery_exact_witness :
    Royalroad.get_chapters exampleParse 9 1
        [exampleRssItem1, exampleRssItem2] (some 6) =
      some [exampleRssChapter] ∧
    ((∀ it ∈ [exampleRssItem1, exampleRssItem2],
      Royalroad.item_to_new_chapter exampleParse 9 1 it ≠ none) ∧
    [exampleRssChapter] = ([exampleRssItem1, exampleRssItem2].filterMap
        (Royalroad.item_to_new_chapter exampleParse 9 1)).filter
      (fun c => optionGt c.published_at (some 6)) ∧
    (∀ c ∈ [exampleRssChapter],
      optionGt c.published_at (some 6) = true ∧
      ∃ it ∈ [exampleRssItem1, exampleRssItem2], ∃ t lk pd d cid,
        it.title = some t ∧ it.link = some lk ∧ it.pubDate = some pd ∧
        exampleParse pd = some d ∧
        Royalroad.get_chapter_id_from_link (some lk) = some cid ∧
        splitOnceRight " - " t = some c.title ∧
        c.metadata = ChapterMetadata.royalRoad 9 cid ∧
        c.book_id = 1 ∧ c.html = none ∧ c.epub = none ∧
        c.published_at = some d)) :=
  ⟨by decide,
    royalroad_discovery_exact exampleParse 9 1
      [exampleRssItem1, exampleRssItem2] (some 6) [exampleRssChapter]
      (by decide)⟩

/-! ## C10: Pale chapter body extraction -/

/-- Counterexample to C10: on `examplePaleChildren` the code keeps the
second child (no text node is exactly "Next Chapter") and joins with a
newline, while the claim's reading — exclude any child whose text contains
"Next Chapter", concatenate the rest — drops it; the two bodies differ. -/
theorem pale_body_counterexample :
    Pale.get_chapter_body examplePaleChildren =
      some ("<p>alpha</p>" ++ "\n" ++ "<p>Click Next Chapter here</p>") ∧
    Pale.spec_chapter_body examplePaleChildren = some "<p>alpha</p>" ∧
    Pale.get_chapter_body examplePaleChildren ≠
      Pale.spec_chapter_body examplePaleChildren :=
  ⟨by decide, by decide, by decide⟩

/-- C10 (amended): the extracted Pale body is the HTML of the
`div.entry-content > *` children — excluding the element with id
`jp-post-flair` and every child having a text NODE exactly equal to
`"Next Chapter"` or `"Previous Chapter"` (substring occurrences inside a
longer text node are not excluded) — joined with `"\n"` separators; the
fetch returns an error exactly when that joined body consists solely of
whitespace. -/
theorem pale_body_exact (children : List Pale.DomChild) :
    (∀ x, x ∈ Pale.kept_children children ↔
      x ∈ children ∧ x.idAttr ≠ some "jp-post-flair" ∧
        "Next Chapter" ∉ x.texts ∧ "Previous Chapter" ∉ x.texts) ∧
    (∀ s, Pale.get_chapter_body children = some s ↔
      s = Pale.joinSep "\n" ((Pale.kept_children children).map
        Pale.DomChild.html) ∧ Pale.trimmedEmpty s = false) ∧
    (Pale.get_chapter_body children = none ↔
      Pale.trimmedEmpty (Pale.joinSep "\n"
        ((Pale.kept_children children).map Pale.DomChild.html)) = true) := by
  refine ⟨fun x => ?_, fun s => ?_, ?_⟩
  · unfold Pale.kept_children
    simp only [List.mem_filter, Bool.not_eq_true', beq_eq_false_iff_ne,
      List.contains, List.elem_eq_mem, decide_eq_false_iff_not, and_assoc]
  · unfold Pale.get_chapter_body
    constructor
    · intro hsome
      by_cases ht : Pale.trimmedEmpty (Pale.joinSep "\n"
          ((Pale.kept_children children).map Pale.DomChild.html)) = true
      · rw [if_pos ht] at hsome; cases hsome
      · rw [if_neg ht] at hsome
        cases hsome
        exact ⟨rfl, Bool.eq_false_iff.2 ht⟩
    · rintro ⟨hs, hsf⟩
      subst hs
      rw [if_neg (by simp [hsf])]
  · unfold Pale.get_chapter_body
    by_cases ht : Pale.trimmedEmpty (Pale.joinSep "\n"
        ((Pale.kept_children children).map Pale.DomChild.html)) = true
    · rw [if_pos ht]; exact ⟨fun _ => ht, fun _ => rfl⟩
    · rw [if_neg ht]
      exact ⟨fun h => Option.noConfusion h, fun h => absurd h ht⟩

/-- Witness for the amended C10 at `examplePaleChildren`. -/
theorem pale_body_exact_witness :
    (∀ x, x ∈ Pale.kept_children examplePaleChildren ↔
      x ∈ examplePaleChildren ∧ x.idAttr ≠ some "jp-post-flair" ∧
        "Next Chapter" ∉ x.texts ∧ "Previous Chapter" ∉ x.texts) ∧
    (∀ s, Pale.get_chapter_body examplePaleChildren = some s ↔
      s = Pale.joinSep "\n" ((Pale.kept_children examplePaleChildren).map
        Pale.DomChild.html) ∧ Pale.trimmedEmpty s = false) ∧
    (Pale.get_chapter_body examplePaleChildren = none ↔
      Pale.trimmedEmpty (Pale.joinSep "\n"
        ((Pale.kept_children examplePaleChildren).map
          Pale.DomChild.html)) = true) :=
  pale_body_exact examplePaleChildren

end Cereal
